import Mathlib

/-!
Verification of the credential and identity validation layer of
src/accounts/forms.py (a Django forms module).

The embedding models the identity store as a list of user records and the
activation-record store as a list of activation records.  Each form clean
method from the source becomes a Lean function; raising a ValidationError
with message m becomes returning (Except.error m), with the exact message
strings of the source.  Forms that set self.user_cache are modelled by
explicit state passing: the clean function takes the current form state and
returns the new state together with the validation outcome, mirroring the
statement order of the Python method (the assignment to user_cache is the
last statement before the return, so every error path leaves the state
untouched).  Timestamps are integers counting seconds, so the Python
expression timezone.now() - timedelta(hours=24) becomes now - 24 * 60 * 60.
Case-insensitive email comparison (the Django iexact lookup) is modelled by
equality after lower-casing every character.
-/

/-- An identity record of the external store (django.contrib.auth User):
id, username, email, an opaque stored password hash and the active flag. -/
structure UserRec where
  id : Nat
  username : String
  email : String
  password : String
  is_active : Bool
deriving Repr, DecidableEq

/-- An activation request: belongs to one identity record (user_id) and has
a creation timestamp. -/
structure Activation where
  user_id : Nat
  created_at : Int
deriving Repr, DecidableEq

/-- The external stores consumed by the forms: the identity store and the
activation-record store. -/
structure DB where
  users : List UserRec
  activations : List Activation
deriving Repr, DecidableEq

/-- Lower-case every character of a string. -/
def lowerString (s : String) : String := String.mk (s.data.map Char.toLower)

/-- Django email iexact lookup: case-insensitive equality of two strings. -/
def iexact (a b : String) : Bool := lowerString a == lowerString b

/-- The per-form state introduced by UserCacheMixin: the cached resolved
user, initially None. -/
structure FormState where
  user_cache : Option UserRec
deriving Repr, DecidableEq

namespace UserCacheMixin

/-- UserCacheMixin declares user_cache = None as the initial state. -/
def init : FormState := { user_cache := none }

end UserCacheMixin

/-- Helper for the activation store model: the element of a list of
activation records with the greatest created_at (ties resolved towards the
front of the list), none on the empty list. -/
def latestIn : List Activation → Option Activation
  | [] => none
  | a :: rest =>
    match latestIn rest with
    | none => some a
    | some b => if b.created_at > a.created_at then some b else some a

/-- Modelled from the spec: the Activation model (and hence the default
ordering behind user.activation_set.first()) is not part of the source
tree; the spec describes the consumed interface as an activation-record
store queried latest-by-identity, and says at most the latest activation
request is consulted.  Accordingly user.activation_set.first() is modelled
as the activation record of that user with the greatest created_at. -/
def latestActivation (acts : List Activation) (uid : Nat) : Option Activation :=
  latestIn (acts.filter (fun a => a.user_id == uid))

namespace SignIn

/-- SignIn.clean_password: if no user has been cached, return the password
unchecked; otherwise fail when user.check_password(password) is false, else
return the password unchanged.  The external hash verifier check_password
is passed as a function parameter. -/
def clean_password (check_password : UserRec → String → Bool)
    (st : FormState) (password : String) : Except String String :=
  match st.user_cache with
  | none => .ok password
  | some user =>
    if !(check_password user password) then
      .error "Yanlış şifre girişi yaptınız."
    else
      .ok password

end SignIn

namespace SignInViaUsernameForm

/-- SignInViaUsernameForm.clean_username: resolve by exact username, fail
if absent, fail if the account is not active, otherwise cache the user and
return the username. -/
def clean_username (db : DB) (st : FormState) (username : String) :
    FormState × Except String String :=
  match db.users.find? (fun u => u.username == username) with
  | none => (st, .error "Böyle bir kullanıcı bulunmamaktadır.")
  | some user =>
    if !user.is_active then
      (st, .error "Bu hesap henüz aktif değil.")
    else
      ({ user_cache := some user }, .ok username)

end SignInViaUsernameForm

namespace SignInViaEmailForm

/-- SignInViaEmailForm.clean_email: resolve by case-insensitive email, fail
if absent, fail if the account is not active, otherwise cache the user and
return the email. -/
def clean_email (db : DB) (st : FormState) (email : String) :
    FormState × Except String String :=
  match db.users.find? (fun u => iexact u.email email) with
  | none => (st, .error "Bu eposta üzerine kayıtlı bir kullanıcı bulunmamaktadır.")
  | some user =>
    if !user.is_active then
      (st, .error "Bu hesap henüz aktif değil.")
    else
      ({ user_cache := some user }, .ok email)

end SignInViaEmailForm

namespace SignInViaEmailOrUsernameForm

/-- SignInViaEmailOrUsernameForm.clean_email_or_username: resolve by exact
username or case-insensitive email, fail if absent, fail if the account is
not active, otherwise cache the user and return the identifier. -/
def clean_email_or_username (db : DB) (st : FormState) (email_or_username : String) :
    FormState × Except String String :=
  match db.users.find? (fun u => u.username == email_or_username || iexact u.email email_or_username) with
  | none => (st, .error "Bu eposta veya kullanıcı adı üzerine kayıtlı bir hesap bulunmamaktadır.")
  | some user =>
    if !user.is_active then
      (st, .error "Bu hesap henüz aktif değil.")
    else
      ({ user_cache := some user }, .ok email_or_username)

end SignInViaEmailOrUsernameForm

namespace SignUpForm

/-- SignUpForm.clean_email: reject the candidate email when any identity
record already holds a case-insensitively equal email. -/
def clean_email (db : DB) (email : String) : Except String String :=
  if db.users.any (fun u => iexact u.email email) then
    .error "Bu eposta adresini kullanamazsınız."
  else
    .ok email

end SignUpForm

namespace ResendActivationCodeForm

/-- ResendActivationCodeForm.clean_email_or_username: resolve by exact
username or case-insensitive email; fail if absent; fail if the account is
already active; fail if the user has no activation record; fail if the
latest activation record was created later than now minus 24 hours;
otherwise cache the user and return the identifier. -/
def clean_email_or_username (db : DB) (now : Int) (st : FormState)
    (email_or_username : String) : FormState × Except String String :=
  match db.users.find? (fun u => u.username == email_or_username || iexact u.email email_or_username) with
  | none => (st, .error "Bu eposta veya kullanıcı adı üzerine kayıtlı bir hesap bulunmamaktadır.")
  | some user =>
    if user.is_active then
      (st, .error "Bu hesap henüz aktif değil.")
    else
      match latestActivation db.activations user.id with
      | none => (st, .error "Aktivasyon kodu bulunamadı.")
      | some activation =>
        if activation.created_at > now - 24 * 60 * 60 then
          (st, .error "Aktivasyon kodunuz halihazırda gönderilmiştir. 24 saat içerisinde sadece bir adet kod talebinde bulunabilirsiniz.")
        else
          ({ user_cache := some user }, .ok email_or_username)

end ResendActivationCodeForm

namespace ResendActivationCodeViaEmailForm

/-- ResendActivationCodeViaEmailForm.clean_email: resolve by
case-insensitive email; fail if absent; fail if the account is already
active; fail if the user has no activation record; fail if the latest
activation record was created later than now minus 24 hours; otherwise
cache the user and return the email. -/
def clean_email (db : DB) (now : Int) (st : FormState) (email : String) :
    FormState × Except String String :=
  match db.users.find? (fun u => iexact u.email email) with
  | none => (st, .error "Bu eposta üzerine kayıtlı bir kullanıcı bulunmamaktadır.")
  | some user =>
    if user.is_active then
      (st, .error "Bu hesap halihazırda aktif hale getirilmiş.")
    else
      match latestActivation db.activations user.id with
      | none => (st, .error "Aktivasyon kodu bulunamadı")
      | some activation =>
        if activation.created_at > now - 24 * 60 * 60 then
          (st, .error "Aktivasyon kodunuz hali hazırda gönderilmiştir. 24 saat içerisinde sadece bir adet kod talebinde bulunabilirsiniz.")
        else
          ({ user_cache := some user }, .ok email)

end ResendActivationCodeViaEmailForm

namespace RemindUsernameForm

/-- RemindUsernameForm.clean_email: resolve by case-insensitive email, fail
if absent, fail if the account is not active, otherwise cache the user and
return the email. -/
def clean_email (db : DB) (st : FormState) (email : String) :
    FormState × Except String String :=
  match db.users.find? (fun u => iexact u.email email) with
  | none => (st, .error "Bu eposta üzerine kayıtlı bir kullanıcı bulunmamaktadır.")
  | some user =>
    if !user.is_active then
      (st, .error "Bu hesap henüz aktif değil.")
    else
      ({ user_cache := some user }, .ok email)

end RemindUsernameForm

namespace ChangeEmailForm

/-- ChangeEmailForm.clean_email: reject the candidate when it equals the
current user email exactly; reject when some identity record with a
different id holds a case-insensitively equal email; otherwise accept. -/
def clean_email (db : DB) (self_user : UserRec) (email : String) :
    Except String String :=
  if email == self_user.email then
    .error "Lütfen başka bir eposta adresi giriniz."
  else if db.users.any (fun u => iexact u.email email && !(u.id == self_user.id)) then
    .error "Bu eposta adresini kullanamazsınız."
  else
    .ok email

end ChangeEmailForm

/-! Concrete store contents used by the witness theorems. -/

/-- An inactive user with two activation records. -/
def user0 : UserRec :=
  { id := 1, username := "ayse", email := "ayse@example.com", password := "pw1", is_active := false }

/-- An active user. -/
def user1 : UserRec :=
  { id := 2, username := "veli", email := "veli@example.com", password := "pw2", is_active := true }

/-- An inactive user with no activation record. -/
def user2 : UserRec :=
  { id := 3, username := "fatma", email := "fatma@example.com", password := "pw3", is_active := false }

/-- An early activation record of user0. -/
def act0 : Activation := { user_id := 1, created_at := 1000 }

/-- A later activation record of user0. -/
def act1 : Activation := { user_id := 1, created_at := 2000 }

/-- A concrete store state. -/
def db0 : DB := { users := [user0, user1, user2], activations := [act0, act1] }

/-- latestIn returns none only on the empty list. -/
theorem latestIn_eq_none (l : List Activation) (h : latestIn l = none) : l = [] := by
  cases l with
  | nil => rfl
  | cons x rest =>
    exfalso
    rw [latestIn] at h
    split at h
    · simp at h
    · split at h <;> simp at h

/-- A result of latestIn is a member of the list. -/
theorem latestIn_mem (l : List Activation) (a : Activation) (h : latestIn l = some a) :
    a ∈ l := by
  induction l generalizing a with
  | nil => simp [latestIn] at h
  | cons x rest ih =>
    rw [latestIn] at h
    split at h
    · cases h
      exact List.mem_cons_self _ _
    · next b hr =>
      split at h
      · cases h
        exact List.mem_cons_of_mem _ (ih _ hr)
      · cases h
        exact List.mem_cons_self _ _

/-- A result of latestIn has the greatest created_at in the list. -/
theorem latestIn_max (l : List Activation) (a : Activation) (h : latestIn l = some a) :
    ∀ b ∈ l, b.created_at ≤ a.created_at := by
  induction l generalizing a with
  | nil => simp [latestIn] at h
  | cons x rest ih =>
    rw [latestIn] at h
    intro b hb
    split at h
    · next hr =>
      cases h
      have hrest : rest = [] := latestIn_eq_none rest hr
      subst hrest
      simp at hb
      subst hb
      exact le_refl _
    · next c hr =>
      split at h
      · next hc =>
        cases h
        cases hb with
        | head => omega
        | tail _ hmem => exact ih _ hr _ hmem
      · next hc =>
        cases h
        cases hb with
        | head => exact le_refl _
        | tail _ hmem =>
          have := ih _ hr _ hmem
          omega

/-- C1: for a resolved, inactive identity with a latest activation record,
the resend is rejected with the rate-limit error if and only if the
record's created_at is strictly later than now minus 24 hours, and it
succeeds if and only if the record's age is at least 24 hours; this holds
for both resend forms. -/
theorem c1_resend_rate_limited_iff
    (db : DB) (now : Int) (st : FormState) (s e : String) (user : UserRec) (a : Activation)
    (h1 : db.users.find? (fun u => u.username == s || iexact u.email s) = some user)
    (h2 : db.users.find? (fun u => iexact u.email e) = some user)
    (hina : user.is_active = false)
    (hla : latestActivation db.activations user.id = some a) :
    (((ResendActivationCodeForm.clean_email_or_username db now st s).2
        = .error "Aktivasyon kodunuz halihazırda gönderilmiştir. 24 saat içerisinde sadece bir adet kod talebinde bulunabilirsiniz."
      ↔ a.created_at > now - 24 * 60 * 60)
      ∧ ((ResendActivationCodeForm.clean_email_or_username db now st s).2 = .ok s
        ↔ now - a.created_at ≥ 24 * 60 * 60))
    ∧ (((ResendActivationCodeViaEmailForm.clean_email db now st e).2
        = .error "Aktivasyon kodunuz hali hazırda gönderilmiştir. 24 saat içerisinde sadece bir adet kod talebinde bulunabilirsiniz."
      ↔ a.created_at > now - 24 * 60 * 60)
      ∧ ((ResendActivationCodeViaEmailForm.clean_email db now st e).2 = .ok e
        ↔ now - a.created_at ≥ 24 * 60 * 60)) := by
  simp [ResendActivationCodeForm.clean_email_or_username,
    ResendActivationCodeViaEmailForm.clean_email, h1, h2, hina, hla]
  split_ifs with h
  · refine ⟨⟨?_, ?_⟩, ?_, ?_⟩ <;> (try simp) <;> omega
  · refine ⟨⟨?_, ?_⟩, ?_, ?_⟩ <;> (try simp) <;> omega

/-- Witness for C1: in the concrete store, the inactive user ayse with a
latest activation 88000 seconds old may resend. -/
theorem c1_resend_rate_limited_iff_witness :
    (ResendActivationCodeForm.clean_email_or_username db0 90000 UserCacheMixin.init "ayse").2
      = .ok "ayse" :=
  ((c1_resend_rate_limited_iff db0 90000 UserCacheMixin.init "ayse" "ayse@example.com" user0 act1
      (by decide) (by decide) (by decide) (by decide)).1.2).mpr (by decide)

/-- C2: the resend-cooldown check consults the resolved identity's most
recent activation record (a member of that identity's records whose
created_at is maximal), and the outcome of either resend form is unchanged
by replacing the activation store with any store that agrees on that
identity's latest record. -/
theorem c2_only_latest_activation_consulted
    (users : List UserRec) (acts1 acts2 : List Activation) (now : Int) (st : FormState)
    (s e : String) (user : UserRec) (a : Activation)
    (h1 : users.find? (fun u => u.username == s || iexact u.email s) = some user)
    (h2 : users.find? (fun u => iexact u.email e) = some user)
    (hagree : latestActivation acts1 user.id = latestActivation acts2 user.id)
    (hla : latestActivation acts1 user.id = some a) :
    (a ∈ acts1.filter (fun x => x.user_id == user.id)
       ∧ ∀ b ∈ acts1.filter (fun x => x.user_id == user.id), b.created_at ≤ a.created_at)
    ∧ ResendActivationCodeForm.clean_email_or_username ⟨users, acts1⟩ now st s
        = ResendActivationCodeForm.clean_email_or_username ⟨users, acts2⟩ now st s
    ∧ ResendActivationCodeViaEmailForm.clean_email ⟨users, acts1⟩ now st e
        = ResendActivationCodeViaEmailForm.clean_email ⟨users, acts2⟩ now st e := by
  refine ⟨⟨latestIn_mem _ _ hla, latestIn_max _ _ hla⟩, ?_, ?_⟩
  · simp only [ResendActivationCodeForm.clean_email_or_username, h1]
    rw [hagree]
  · simp only [ResendActivationCodeViaEmailForm.clean_email, h2]
    rw [hagree]

/-- Witness for C2: dropping the older activation record act0 of user ayse
does not change the resend outcome. -/
theorem c2_only_latest_activation_consulted_witness :
    ResendActivationCodeForm.clean_email_or_username
        ⟨[user0, user1, user2], [act0, act1]⟩ 90000 UserCacheMixin.init "ayse"
      = ResendActivationCodeForm.clean_email_or_username
        ⟨[user0, user1, user2], [act1]⟩ 90000 UserCacheMixin.init "ayse" :=
  (c2_only_latest_activation_consulted [user0, user1, user2] [act0, act1] [act1]
    90000 UserCacheMixin.init "ayse" "ayse@example.com" user0 act1
    (by decide) (by decide) (by decide) (by decide)).2.1

/-- C3: with a resolved cached user, password cleaning fails with the wrong
password error exactly when the external hash check rejects the candidate,
and returns the password unchanged when it matches. -/
theorem c3_password_verifier
    (check_password : UserRec → String → Bool) (user : UserRec)
    (st : FormState) (password : String)
    (hc : st.user_cache = some user) :
    (check_password user password = false →
       SignIn.clean_password check_password st password
         = .error "Yanlış şifre girişi yaptınız.")
    ∧ (check_password user password = true →
       SignIn.clean_password check_password st password = .ok password) := by
  constructor
  · intro hw
    simp [SignIn.clean_password, hc, hw]
  · intro hw
    simp [SignIn.clean_password, hc, hw]

/-- Witness for C3: with stored-secret equality as the hash check, user
ayse with candidate bad fails with the wrong password error. -/
theorem c3_password_verifier_witness :
    SignIn.clean_password (fun u p => u.password == p)
        { user_cache := some user0 } "bad"
      = .error "Yanlış şifre girişi yaptınız." :=
  (c3_password_verifier (fun u p => u.password == p) user0
    { user_cache := some user0 } "bad" (by decide)).1 (by decide)

/-- C4: for each sign-in identifier form, cleaning fails with the not-found
error when no identity record matches, fails with the not-activated error
when the matching record is inactive, and otherwise succeeds, caching the
resolved user. -/
theorem c4_sign_in_identifier_resolution (db : DB) (st : FormState) (s : String) :
    ((db.users.find? (fun u => u.username == s) = none →
        SignInViaUsernameForm.clean_username db st s
          = (st, .error "Böyle bir kullanıcı bulunmamaktadır."))
     ∧ (∀ user, db.users.find? (fun u => u.username == s) = some user →
        user.is_active = false →
        SignInViaUsernameForm.clean_username db st s
          = (st, .error "Bu hesap henüz aktif değil."))
     ∧ (∀ user, db.users.find? (fun u => u.username == s) = some user →
        user.is_active = true →
        SignInViaUsernameForm.clean_username db st s
          = ({ user_cache := some user }, .ok s)))
    ∧ ((db.users.find? (fun u => iexact u.email s) = none →
        SignInViaEmailForm.clean_email db st s
          = (st, .error "Bu eposta üzerine kayıtlı bir kullanıcı bulunmamaktadır."))
     ∧ (∀ user, db.users.find? (fun u => iexact u.email s) = some user →
        user.is_active = false →
        SignInViaEmailForm.clean_email db st s
          = (st, .error "Bu hesap henüz aktif değil."))
     ∧ (∀ user, db.users.find? (fun u => iexact u.email s) = some user →
        user.is_active = true →
        SignInViaEmailForm.clean_email db st s
          = ({ user_cache := some user }, .ok s)))
    ∧ ((db.users.find? (fun u => u.username == s || iexact u.email s) = none →
        SignInViaEmailOrUsernameForm.clean_email_or_username db st s
          = (st, .error "Bu eposta veya kullanıcı adı üzerine kayıtlı bir hesap bulunmamaktadır."))
     ∧ (∀ user, db.users.find? (fun u => u.username == s || iexact u.email s) = some user →
        user.is_active = false →
        SignInViaEmailOrUsernameForm.clean_email_or_username db st s
          = (st, .error "Bu hesap henüz aktif değil."))
     ∧ (∀ user, db.users.find? (fun u => u.username == s || iexact u.email s) = some user →
        user.is_active = true →
        SignInViaEmailOrUsernameForm.clean_email_or_username db st s
          = ({ user_cache := some user }, .ok s))) := by
  refine ⟨⟨?_, ?_, ?_⟩, ⟨?_, ?_, ?_⟩, ⟨?_, ?_, ?_⟩⟩
  · intro h
    simp [SignInViaUsernameForm.clean_username, h]
  · intro user h ha
    simp [SignInViaUsernameForm.clean_username, h, ha]
  · intro user h ha
    simp [SignInViaUsernameForm.clean_username, h, ha]
  · intro h
    simp [SignInViaEmailForm.clean_email, h]
  · intro user h ha
    simp [SignInViaEmailForm.clean_email, h, ha]
  · intro user h ha
    simp [SignInViaEmailForm.clean_email, h, ha]
  · intro h
    simp [SignInViaEmailOrUsernameForm.clean_email_or_username, h]
  · intro user h ha
    simp [SignInViaEmailOrUsernameForm.clean_email_or_username, h, ha]
  · intro user h ha
    simp [SignInViaEmailOrUsernameForm.clean_email_or_username, h, ha]

/-- Witness for C4: username ghost matches no record and fails with the
not-found error. -/
theorem c4_sign_in_identifier_resolution_witness :
    SignInViaUsernameForm.clean_username db0 UserCacheMixin.init "ghost"
      = (UserCacheMixin.init, .error "Böyle bir kullanıcı bulunmamaktadır.") :=
  (c4_sign_in_identifier_resolution db0 UserCacheMixin.init "ghost").1.1 (by decide)

/-- C5: both resend forms reject a resolved identity whose active flag is
true, while sign-in rejects a resolved identity whose active flag is
false. -/
theorem c5_resend_requires_inactive
    (db : DB) (now : Int) (st : FormState) (s e t : String) (user : UserRec) :
    ((db.users.find? (fun u => u.username == s || iexact u.email s) = some user →
       user.is_active = true →
       (ResendActivationCodeForm.clean_email_or_username db now st s).2
         = .error "Bu hesap henüz aktif değil.")
    ∧ (db.users.find? (fun u => iexact u.email e) = some user →
       user.is_active = true →
       (ResendActivationCodeViaEmailForm.clean_email db now st e).2
         = .error "Bu hesap halihazırda aktif hale getirilmiş.")
    ∧ (db.users.find? (fun u => u.username == t) = some user →
       user.is_active = false →
       (SignInViaUsernameForm.clean_username db st t).2
         = .error "Bu hesap henüz aktif değil.")) := by
  refine ⟨?_, ?_, ?_⟩ <;> intro h ha <;>
    simp [ResendActivationCodeForm.clean_email_or_username,
      ResendActivationCodeViaEmailForm.clean_email,
      SignInViaUsernameForm.clean_username, h, ha]

/-- Witness for C5: the active user veli cannot request a resend. -/
theorem c5_resend_requires_inactive_witness :
    (ResendActivationCodeForm.clean_email_or_username db0 90000 UserCacheMixin.init "veli").2
      = .error "Bu hesap henüz aktif değil." :=
  (c5_resend_requires_inactive db0 90000 UserCacheMixin.init
    "veli" "veli@example.com" "veli" user1).1 (by decide) (by decide)

/-- C6: sign-up email cleaning rejects any candidate that is
case-insensitively equal to the email of an existing identity record. -/
theorem c6_signup_rejects_case_insensitive_duplicate
    (db : DB) (r : UserRec) (email : String)
    (hr : r ∈ db.users) (hiex : iexact r.email email = true) :
    SignUpForm.clean_email db email = .error "Bu eposta adresini kullanamazsınız." := by
  have hany : db.users.any (fun u => iexact u.email email) = true :=
    List.any_eq_true.mpr ⟨r, hr, hiex⟩
  simp [SignUpForm.clean_email, hany]

/-- Witness for C6: an upper-case variant of ayse's registered email is
rejected at sign-up. -/
theorem c6_signup_rejects_case_insensitive_duplicate_witness :
    SignUpForm.clean_email db0 "AYSE@EXAMPLE.COM"
      = .error "Bu eposta adresini kullanamazsınız." :=
  c6_signup_rejects_case_insensitive_duplicate db0 user0 "AYSE@EXAMPLE.COM"
    (by decide) (by decide)

/-- C7: both resend forms fail with the activation-code-not-found error for
a resolved inactive identity that has no activation record. -/
theorem c7_no_activation_record
    (db : DB) (now : Int) (st : FormState) (s e : String) (user : UserRec)
    (hina : user.is_active = false)
    (hnone : latestActivation db.activations user.id = none) :
    (db.users.find? (fun u => u.username == s || iexact u.email s) = some user →
       (ResendActivationCodeForm.clean_email_or_username db now st s).2
         = .error "Aktivasyon kodu bulunamadı.")
    ∧ (db.users.find? (fun u => iexact u.email e) = some user →
       (ResendActivationCodeViaEmailForm.clean_email db now st e).2
         = .error "Aktivasyon kodu bulunamadı") := by
  constructor <;> intro h <;>
    simp [ResendActivationCodeForm.clean_email_or_username,
      ResendActivationCodeViaEmailForm.clean_email, h, hina, hnone]

/-- Witness for C7: the inactive user fatma has no activation record, so
the resend fails with the not-found error for the activation code. -/
theorem c7_no_activation_record_witness :
    (ResendActivationCodeForm.clean_email_or_username db0 90000 UserCacheMixin.init "fatma").2
      = .error "Aktivasyon kodu bulunamadı." :=
  (c7_no_activation_record db0 90000 UserCacheMixin.init
    "fatma" "fatma@example.com" user2 (by decide) (by decide)).1 (by decide)

/-- If every identity record holding a case-insensitively equal email is
the user's own record, the excluding-id existence check is false. -/
theorem any_excluding_eq_false (db : DB) (self_user : UserRec) (email : String)
    (hall : ∀ r ∈ db.users, iexact r.email email = true → r.id = self_user.id) :
    db.users.any (fun u => iexact u.email email && !(u.id == self_user.id)) = false := by
  rw [List.any_eq_false]
  intro u hu
  by_cases hie : iexact u.email email = true
  · have hid := hall u hu hie
    simp [hie, hid]
  · simp [hie]

/-- C8: email change is rejected whenever some identity record with a
different id holds a case-insensitively equal email, and the existence
check never counts the user's own record: when every case-insensitive
match is the user's own record and the candidate is not the current email,
cleaning succeeds. -/
theorem c8_change_email_excludes_self (db : DB) (self_user : UserRec) (email : String) :
    ((∃ r ∈ db.users, r.id ≠ self_user.id ∧ iexact r.email email = true) →
       ∃ msg, ChangeEmailForm.clean_email db self_user email = .error msg)
    ∧ (email ≠ self_user.email →
       (∀ r ∈ db.users, iexact r.email email = true → r.id = self_user.id) →
       ChangeEmailForm.clean_email db self_user email = .ok email) := by
  constructor
  · rintro ⟨r, hr, hid, hiex⟩
    by_cases he : email = self_user.email
    · exact ⟨"Lütfen başka bir eposta adresi giriniz.",
        by simp [ChangeEmailForm.clean_email, he]⟩
    · have hany : db.users.any (fun u => iexact u.email email && !(u.id == self_user.id)) = true := by
        refine List.any_eq_true.mpr ⟨r, hr, ?_⟩
        simp [hiex, hid]
      exact ⟨"Bu eposta adresini kullanamazsınız.",
        by simp [ChangeEmailForm.clean_email, he, hany]⟩
  · intro he hall
    have hany := any_excluding_eq_false db self_user email hall
    simp [ChangeEmailForm.clean_email, he, hany]

/-- Witness for C8: user veli may not change the email to an upper-case
variant of ayse's email, since ayse's record has a different id. -/
theorem c8_change_email_excludes_self_witness :
    ∃ msg, ChangeEmailForm.clean_email db0 user1 "AYSE@EXAMPLE.COM" = .error msg :=
  (c8_change_email_excludes_self db0 user1 "AYSE@EXAMPLE.COM").1
    ⟨user0, by decide, by decide, by decide⟩

/-- C9: for the user-cache-carrying forms, whenever cleaning raises a
validation error the form state (and hence user_cache) is exactly the
incoming state, so a failed validation never leaves a partially resolved
identity. -/
theorem c9_user_cache_unchanged_on_error
    (db : DB) (now : Int) (st : FormState) (s e t : String) :
    (∀ msg, (SignInViaEmailOrUsernameForm.clean_email_or_username db st s).2 = .error msg →
       (SignInViaEmailOrUsernameForm.clean_email_or_username db st s).1 = st)
    ∧ (∀ msg, (ResendActivationCodeForm.clean_email_or_username db now st t).2 = .error msg →
       (ResendActivationCodeForm.clean_email_or_username db now st t).1 = st)
    ∧ (∀ msg, (RemindUsernameForm.clean_email db st e).2 = .error msg →
       (RemindUsernameForm.clean_email db st e).1 = st) := by
  refine ⟨?_, ?_, ?_⟩
  · intro msg h
    cases hf : db.users.find? (fun u => u.username == s || iexact u.email s) with
    | none => simp [SignInViaEmailOrUsernameForm.clean_email_or_username, hf]
    | some user =>
      cases ha : user.is_active with
      | false => simp [SignInViaEmailOrUsernameForm.clean_email_or_username, hf, ha]
      | true =>
        unfold SignInViaEmailOrUsernameForm.clean_email_or_username at h
        rw [hf] at h
        simp [ha] at h
  · intro msg h
    cases hf : db.users.find? (fun u => u.username == t || iexact u.email t) with
    | none => simp [ResendActivationCodeForm.clean_email_or_username, hf]
    | some user =>
      cases ha : user.is_active with
      | true => simp [ResendActivationCodeForm.clean_email_or_username, hf, ha]
      | false =>
        cases hl : latestActivation db.activations user.id with
        | none => simp [ResendActivationCodeForm.clean_email_or_username, hf, ha, hl]
        | some activation =>
          by_cases hc : activation.created_at > now - 24 * 60 * 60
          · have hc2 : now - 86400 < activation.created_at := by omega
            simp [ResendActivationCodeForm.clean_email_or_username, hf, ha, hl, hc2]
          · have hc2 : ¬ now - 86400 < activation.created_at := by omega
            unfold ResendActivationCodeForm.clean_email_or_username at h
            rw [hf] at h
            simp [ha, hl, hc2] at h
  · intro msg h
    cases hf : db.users.find? (fun u => iexact u.email e) with
    | none => simp [RemindUsernameForm.clean_email, hf]
    | some user =>
      cases ha : user.is_active with
      | false => simp [RemindUsernameForm.clean_email, hf, ha]
      | true =>
        unfold RemindUsernameForm.clean_email at h
        rw [hf] at h
        simp [ha] at h

/-- Witness for C9: an unknown identifier fails and leaves the initial
state unchanged. -/
theorem c9_user_cache_unchanged_on_error_witness :
    (SignInViaEmailOrUsernameForm.clean_email_or_username db0 UserCacheMixin.init "ghost").1
      = UserCacheMixin.init :=
  (c9_user_cache_unchanged_on_error db0 90000 UserCacheMixin.init
    "ghost" "ghost" "ghost").1
    "Bu eposta veya kullanıcı adı üzerine kayıtlı bir hesap bulunmamaktadır."
    (by rfl)

/-- C10: change-email compares the candidate with the current email
case-sensitively, so an exact match is rejected, but a case-variant of the
user's own email passes cleaning whenever every case-insensitive match in
the store is the user's own record (the case-insensitive uniqueness
invariant of the data model). -/
theorem c10_change_email_accepts_case_variant_of_own
    (db : DB) (self_user : UserRec) (email : String) :
    (email = self_user.email →
       ChangeEmailForm.clean_email db self_user email
         = .error "Lütfen başka bir eposta adresi giriniz.")
    ∧ (email ≠ self_user.email → iexact email self_user.email = true →
       (∀ r ∈ db.users, iexact r.email email = true → r.id = self_user.id) →
       ChangeEmailForm.clean_email db self_user email = .ok email) := by
  constructor
  · intro he
    simp [ChangeEmailForm.clean_email, he]
  · intro he hcase hall
    have hany := any_excluding_eq_false db self_user email hall
    simp [ChangeEmailForm.clean_email, he, hany]

/-- Witness for C10: ayse may change the email to a mixed-case variant of
the current address. -/
theorem c10_change_email_accepts_case_variant_of_own_witness :
    ChangeEmailForm.clean_email db0 user0 "Ayse@Example.Com" = .ok "Ayse@Example.Com" :=
  (c10_change_email_accepts_case_variant_of_own db0 user0 "Ayse@Example.Com").2
    (by decide) (by decide) (by decide)
